import Mathlib

/-!
Shallow embedding of `src/SFML/Audio/SoundRecorder.cpp` (sfml-pi).

The source is a capture-lifecycle controller: `start` claims a process-wide
exclusivity slot (the file-scope global `captureDevice`), opens the backend
capture device, runs consumer hooks, and launches a background thread running
`record()`, a poll-forward-sleep loop ended by `cleanup()`.

Modelling choices:
- One Lean structure `RecState` bundles the controller's member fields
  (`m_sampleRate`, `m_isCapturing`, `m_deviceName`, `m_samples`,
  `m_processingInterval`), the process-global slot `captureDevice`
  (an `Option Unit`: `some ()` means the slot holds an open device handle,
  `none` means `NULL`), the fact that the capture thread has been launched and
  not yet joined (`threadRunning`), and the backend's remaining script of
  `ALC_CAPTURE_SAMPLES` poll answers (`pollQueue`, consumed one entry per
  `alcGetIntegerv` call) together with a cursor `streamPos` into the backend's
  sample stream.
- `Env` is the external world: the two capture-extension capability bits
  queried by `isAvailable`, the default device name, whether
  `alcCaptureOpenDevice` succeeds for a given name and rate, the derived
  class's hook results (`onStart`, and `onProcess k` = the return value of the
  k-th `onProcessSamples` invocation), and the infinite backend sample stream.
- Every backend call and hook invocation is recorded in an event trace
  (`List Event`), so frame claims ("issues no backend calls") and ordering
  claims ("stop capture, drain once, close, clear slot") are statements about
  the trace.
- Concurrency is linearized: the background thread's whole execution is
  materialized at the join point (`stop` / the capturing branch of
  `setDevice`).  The fuel argument `stopAfter` is the number of loop
  iterations the thread completes before it observes the caller's
  `m_isCapturing = false` store; `record env s 0` is the loop check that sees
  the store.  A hook-requested stop (`onProcessSamples` returning false) ends
  the loop earlier regardless of the remaining fuel, exactly as in the source.
-/

namespace SfmlPi

/-- Observable actions: backend calls made by the recorder and hook
invocations delivered to the derived class, in program order. -/
inductive Event where
  | openDevice (name : String) (rate : Nat) (ok : Bool)
  | captureStart
  | captureStop
  | closeDevice
  | slotCleared
  | getAvail (n : Nat)
  | pullSamples (n : Nat)
  | hookStart (r : Bool)
  | hookProcess (count : Nat) (r : Bool)
  | hookStop
  | sleep (ms : Nat)
  | launchThread
deriving DecidableEq, Repr

/-- The external world: backend capabilities and the derived class's hooks. -/
structure Env where
  available1 : Bool
  available2 : Bool
  defaultDevice : String
  openOk : String → Nat → Bool
  onStart : Bool
  onProcess : Nat → Bool
  stream : Nat → Int
deriving Inhabited

/-- Controller members, the process-global `captureDevice` slot, and the
backend's poll script. -/
structure RecState where
  captureDevice : Option Unit
  sampleRate : Nat
  isCapturing : Bool
  deviceName : String
  samples : List Int
  processingInterval : Nat
  threadRunning : Bool
  pollQueue : List Nat
  streamPos : Nat
  hookIdx : Nat
deriving DecidableEq, Repr

/-- `SoundRecorder::isAvailable` (lines 207-211): true iff the backend reports
the capture extension under either of the two spellings. -/
def isAvailable (env : Env) : Bool :=
  env.available1 || env.available2

/-- The distinct return paths of `SoundRecorder::start`, labelled by the
diagnostic each prints (spec section 7's error kinds; `ok` is success). -/
inductive StartOutcome where
  | ok
  | captureUnavailable
  | deviceBusy
  | openFailed
  | consumerAborted
deriving DecidableEq, Repr

/-- `SoundRecorder::start` (lines 69-113): availability check, exclusivity
slot check, backend open (the open result is assigned to `captureDevice`,
NULL on failure), clear samples, store rate, `onStart()` hook; on hook accept
start backend capture, set `m_isCapturing`, launch the thread. -/
def start (env : Env) (s : RecState) (sampleRate : Nat) :
    StartOutcome × RecState × List Event :=
  if !(isAvailable env) then
    (.captureUnavailable, s, [])
  else if s.captureDevice.isSome then
    (.deviceBusy, s, [])
  else if !(env.openOk s.deviceName sampleRate) then
    (.openFailed, { s with captureDevice := none },
      [.openDevice s.deviceName sampleRate false])
  else
    let s1 : RecState :=
      { s with captureDevice := some (), samples := [], sampleRate := sampleRate }
    if env.onStart then
      (.ok, { s1 with isCapturing := true, threadRunning := true },
        [.openDevice s.deviceName sampleRate true, .hookStart true,
         .captureStart, .launchThread])
    else
      (.consumerAborted, s1,
        [.openDevice s.deviceName sampleRate true, .hookStart false])

/-- `SoundRecorder::getSampleRate` (lines 129-132). -/
def getSampleRate (s : RecState) : Nat :=
  s.sampleRate

/-- `SoundRecorder::getDevice` (lines 200-203). -/
def getDevice (s : RecState) : String :=
  s.deviceName

/-- `SoundRecorder::processCapturedSamples` (lines 254-273): read the
available count, and if positive resize the buffer to it, pull exactly that
many samples, forward them through `onProcessSamples`; a false hook result
clears `m_isCapturing`. -/
def processCapturedSamples (env : Env) (s : RecState) : RecState × List Event :=
  let n := s.pollQueue.headD 0
  let s0 : RecState := { s with pollQueue := s.pollQueue.tail }
  if 0 < n then
    let pulled := (List.range n).map fun j => env.stream (s0.streamPos + j)
    let r := env.onProcess s0.hookIdx
    ({ s0 with samples := pulled, streamPos := s0.streamPos + n,
               hookIdx := s0.hookIdx + 1,
               isCapturing := s0.isCapturing && r },
     [.getAvail n, .pullSamples n, .hookProcess pulled.length r])
  else
    (s0, [.getAvail n])

/-- `SoundRecorder::cleanup` (lines 277-288): stop the backend capture, one
more poll-and-forward pass, close the device, set `captureDevice = NULL`. -/
def cleanup (env : Env) (s : RecState) : RecState × List Event :=
  let p := processCapturedSamples env s
  ({ p.1 with captureDevice := none },
   Event.captureStop :: (p.2 ++ [Event.closeDevice, Event.slotCleared]))

/-- `SoundRecorder::record` (lines 237-250): poll, sleep, re-check
`m_isCapturing`; on loop exit run `cleanup`.  `stopAfter` is the number of
completed iterations before the caller's `m_isCapturing = false` store is
observed at the loop check (fuel 0 models that store landing now). -/
def record (env : Env) (s : RecState) (stopAfter : Nat) : RecState × List Event :=
  match stopAfter with
  | 0 => cleanup env { s with isCapturing := false }
  | Nat.succ k =>
    if s.isCapturing then
      let p := processCapturedSamples env s
      let q := record env p.1 k
      (q.1, p.2 ++ (Event.sleep s.processingInterval :: q.2))
    else
      cleanup env s

/-- `SoundRecorder::stop` (lines 117-125): clear `m_isCapturing`, join the
thread (its whole remaining run, `record`, materializes here), then invoke
the `onStop` hook.  When no thread is running the join returns at once and
the hook still fires. -/
def stop (env : Env) (s : RecState) (stopAfter : Nat) : RecState × List Event :=
  if s.threadRunning then
    let p := record env s stopAfter
    ({ p.1 with threadRunning := false }, p.2 ++ [Event.hookStop])
  else
    ({ s with isCapturing := false }, [Event.hookStop])

/-- `SoundRecorder::setDevice` (lines 162-196): store the resolved name
(empty resolves to the default); if capturing, stop and join the thread,
reopen the backend with the raw `name` argument at the stored rate, and on
success restart capture and relaunch the thread; on open failure invoke the
`onStop` hook and return false. -/
def setDevice (env : Env) (s : RecState) (name : String) (stopAfter : Nat) :
    Bool × RecState × List Event :=
  let s0 : RecState :=
    { s with deviceName := if name = "" then env.defaultDevice else name }
  if s0.isCapturing then
    let p := record env s0 stopAfter
    let s1 : RecState := { p.1 with threadRunning := false }
    if env.openOk name s1.sampleRate then
      (true,
       { s1 with captureDevice := some (), isCapturing := true,
                 threadRunning := true },
       p.2 ++ [.openDevice name s1.sampleRate true, .captureStart,
               .launchThread])
    else
      (false, { s1 with captureDevice := none },
       p.2 ++ [.openDevice name s1.sampleRate false, .hookStop])
  else
    (true, s0, [])

/-- Counts from the `onProcessSamples` invocations in a trace, in order. -/
def hookCounts (tr : List Event) : List Nat :=
  tr.filterMap fun e =>
    match e with
    | .hookProcess n _ => some n
    | _ => none

/-- Number of `onProcessSamples` invocations recorded in a trace. -/
def hookCallCount (tr : List Event) : Nat :=
  (hookCounts tr).length

/-- Number of occurrences of an event in a trace. -/
def countE (e : Event) : List Event → Nat
  | [] => 0
  | x :: tr => (if x = e then 1 else 0) + countE e tr

/-- A cooperative world: capture supported, every open succeeds, every hook
accepts, silent sample stream. -/
def envOk : Env :=
  { available1 := true, available2 := false, defaultDevice := "default",
    openOk := fun _ _ => true, onStart := true, onProcess := fun _ => true,
    stream := fun _ => 0 }

/-- Like `envOk` but the backend rejects every open request. -/
def envOpenFail : Env :=
  { envOk with openOk := fun _ _ => false }

/-- Like `envOk` but the pre-start hook `onStart` refuses. -/
def envAbort : Env :=
  { envOk with onStart := false }

/-- Like `envOk` but `onProcessSamples` always requests a stop. -/
def envRefuse : Env :=
  { envOk with onProcess := fun _ => false }

/-- A freshly constructed idle recorder whose backend will answer the next
polls with 100, 50, 0 available samples. -/
def stIdle : RecState :=
  { captureDevice := none, sampleRate := 0, isCapturing := false,
    deviceName := "default", samples := [], processingInterval := 100,
    threadRunning := false, pollQueue := [100, 50, 0], streamPos := 0,
    hookIdx := 0 }

/-- The recorder of scenario B, right after a successful `start(44100)`. -/
def stLive : RecState :=
  (start envOk stIdle 44100).2.1

lemma countE_append (e : Event) (a b : List Event) :
    countE e (a ++ b) = countE e a + countE e b := by
  induction a with
  | nil => simp [countE]
  | cons x xs ih => simp [countE, ih]; omega

/-- One poll pass produces either the three events of a non-empty poll or the
lone availability query of an empty one. -/
lemma pcs_trace_cases (env : Env) (s : RecState) :
    ((processCapturedSamples env s).2 =
       [Event.getAvail (s.pollQueue.headD 0),
        Event.pullSamples (s.pollQueue.headD 0),
        Event.hookProcess (s.pollQueue.headD 0) (env.onProcess s.hookIdx)]) ∨
    (processCapturedSamples env s).2 = [Event.getAvail 0] := by
  by_cases h : 0 < s.pollQueue.headD 0
  · left
    simp only [processCapturedSamples]
    rw [if_pos h]
    simp
  · right
    have h0 : s.pollQueue.headD 0 = 0 := by omega
    simp only [processCapturedSamples]
    rw [if_neg h, h0]

lemma pcs_no_control_events (env : Env) (s : RecState) :
    countE Event.captureStop (processCapturedSamples env s).2 = 0 ∧
    countE Event.closeDevice (processCapturedSamples env s).2 = 0 ∧
    countE Event.slotCleared (processCapturedSamples env s).2 = 0 ∧
    countE Event.hookStop (processCapturedSamples env s).2 = 0 := by
  rcases pcs_trace_cases env s with h | h <;> simp [h, countE]

lemma pcs_isCapturing_false (env : Env) (s : RecState)
    (h : s.isCapturing = false) :
    (processCapturedSamples env s).1.isCapturing = false := by
  by_cases hn : 0 < s.pollQueue.headD 0
  · simp only [processCapturedSamples]
    rw [if_pos hn]
    simp [h]
  · simp only [processCapturedSamples]
    rw [if_neg hn]
    simp [h]

lemma pcs_sampleRate (env : Env) (s : RecState) :
    (processCapturedSamples env s).1.sampleRate = s.sampleRate := by
  by_cases hn : 0 < s.pollQueue.headD 0
  · simp only [processCapturedSamples]
    rw [if_pos hn]
  · simp only [processCapturedSamples]
    rw [if_neg hn]

lemma cleanup_captureDevice (env : Env) (s : RecState) :
    (cleanup env s).1.captureDevice = none := by
  simp [cleanup]

lemma cleanup_isCapturing_false (env : Env) (s : RecState)
    (h : s.isCapturing = false) :
    (cleanup env s).1.isCapturing = false := by
  simpa [cleanup] using pcs_isCapturing_false env s h

lemma cleanup_sampleRate (env : Env) (s : RecState) :
    (cleanup env s).1.sampleRate = s.sampleRate := by
  simpa [cleanup] using pcs_sampleRate env s

lemma set_isCapturing_false_eq (s : RecState) (h : s.isCapturing = false) :
    ({ s with isCapturing := false } : RecState) = s := by
  cases s
  simp_all

lemma record_isCapturing (env : Env) (s : RecState) (i : Nat) :
    (record env s i).1.isCapturing = false := by
  induction i generalizing s with
  | zero => exact cleanup_isCapturing_false env _ rfl
  | succ k ih =>
    by_cases h : s.isCapturing
    · simpa [record, h] using ih (processCapturedSamples env s).1
    · have hf : s.isCapturing = false := by simpa using h
      simpa [record, h] using cleanup_isCapturing_false env s hf

lemma record_captureDevice (env : Env) (s : RecState) (i : Nat) :
    (record env s i).1.captureDevice = none := by
  induction i generalizing s with
  | zero => exact cleanup_captureDevice env _
  | succ k ih =>
    by_cases h : s.isCapturing
    · simpa [record, h] using ih (processCapturedSamples env s).1
    · simpa [record, h] using cleanup_captureDevice env s

lemma record_sampleRate (env : Env) (s : RecState) (i : Nat) :
    (record env s i).1.sampleRate = s.sampleRate := by
  induction i generalizing s with
  | zero => exact cleanup_sampleRate env _
  | succ k ih =>
    by_cases h : s.isCapturing
    · have := ih (processCapturedSamples env s).1
      simpa [record, h, pcs_sampleRate] using this
    · simpa [record, h] using cleanup_sampleRate env s

lemma record_no_hookStop (env : Env) (s : RecState) (i : Nat) :
    countE Event.hookStop (record env s i).2 = 0 := by
  induction i generalizing s with
  | zero =>
    simp [record, cleanup, countE, countE_append,
      (pcs_no_control_events env _).2.2.2]
  | succ k ih =>
    by_cases h : s.isCapturing
    · simp [record, h, countE, countE_append,
        (pcs_no_control_events env s).2.2.2, ih]
    · simp [record, h, cleanup, countE, countE_append,
        (pcs_no_control_events env s).2.2.2]

lemma record_of_not_capturing (env : Env) (s : RecState) (i : Nat)
    (h : s.isCapturing = false) :
    record env s i = cleanup env s := by
  cases i with
  | zero => simp [record, set_isCapturing_false_eq s h]
  | succ k => simp [record, h]

/-- Every run of the capture loop ends in exactly one `cleanup`, entered with
the stop flag already clear; everything before it contains no shutdown
events. -/
lemma record_shape (env : Env) (s : RecState) (i : Nat) :
    ∃ pre s0, s0.isCapturing = false ∧
      record env s i = ((cleanup env s0).1, pre ++ (cleanup env s0).2) ∧
      countE Event.captureStop pre = 0 ∧
      countE Event.closeDevice pre = 0 ∧
      countE Event.slotCleared pre = 0 := by
  induction i generalizing s with
  | zero =>
    exact ⟨[], { s with isCapturing := false }, rfl, by simp [record], rfl,
      rfl, rfl⟩
  | succ k ih =>
    by_cases h : s.isCapturing
    · obtain ⟨pre, s0, h0, heq, h1, h2, h3⟩ := ih (processCapturedSamples env s).1
      refine ⟨(processCapturedSamples env s).2 ++
        (Event.sleep s.processingInterval :: pre), s0, h0, ?_, ?_, ?_, ?_⟩
      · simp [record, h, heq]
      · simp [countE_append, countE, h1, (pcs_no_control_events env s).1]
      · simp [countE_append, countE, h2, (pcs_no_control_events env s).2.1]
      · simp [countE_append, countE, h3, (pcs_no_control_events env s).2.2.1]
    · have hf : s.isCapturing = false := by simpa using h
      exact ⟨[], s, hf, by simp [record, h], rfl, rfl, rfl⟩

/-- The result state of one poll pass does not depend on the hook's return
value once the stop flag is already clear: that value's only effect anywhere
is clearing `m_isCapturing`. -/
lemma pcs_state_hook_independent (env : Env) (f : Nat → Bool) (s : RecState)
    (h : s.isCapturing = false) :
    (processCapturedSamples env s).1 =
      (processCapturedSamples { env with onProcess := f } s).1 := by
  by_cases hn : 0 < s.pollQueue.headD 0
  · simp only [processCapturedSamples]
    rw [if_pos hn, if_pos hn]
    simp [h]
  · simp only [processCapturedSamples]
    rw [if_neg hn, if_neg hn]

lemma cleanup_state_hook_independent (env : Env) (f : Nat → Bool)
    (s : RecState) (h : s.isCapturing = false) :
    (cleanup env s).1 = (cleanup { env with onProcess := f } s).1 := by
  simp [cleanup, pcs_state_hook_independent env f s h]

lemma cleanup_hookCallCount_le_one (env : Env) (s : RecState) :
    hookCallCount (cleanup env s).2 ≤ 1 := by
  rcases pcs_trace_cases env s with h | h <;>
    simp [cleanup, hookCallCount, hookCounts, h]

/-- The full loop trace carries exactly one backend capture-stop, one device
close and one slot clear. -/
lemma record_shutdown_once (env : Env) (s : RecState) (i : Nat) :
    countE Event.captureStop (record env s i).2 = 1 ∧
    countE Event.closeDevice (record env s i).2 = 1 ∧
    countE Event.slotCleared (record env s i).2 = 1 := by
  obtain ⟨pre, s0, h0, heq, h1, h2, h3⟩ := record_shape env s i
  have htr : (record env s i).2 = pre ++ (cleanup env s0).2 := by rw [heq]
  obtain ⟨p1, p2, p3, _⟩ := pcs_no_control_events env s0
  refine ⟨?_, ?_, ?_⟩ <;>
    simp [htr, countE_append, h1, h2, h3, cleanup, countE, p1, p2, p3]

lemma start_ne_deviceBusy (env : Env) (s : RecState) (r : Nat)
    (h : s.captureDevice = none) :
    (start env s r).1 ≠ StartOutcome.deviceBusy := by
  simp only [start, h]
  split
  · simp
  · split
    · simp_all
    · split
      · simp
      · split <;> simp

/-- C1 counterexample: the backend supports capture and the global slot is
empty, yet `start(1)` returns false because the device open fails, so
"start(r) returns true if and only if isAvailable() is true and the slot is
unoccupied" is false on the code. -/
theorem start_iff_availability_counterexample :
    isAvailable envOpenFail = true ∧ stIdle.captureDevice = none ∧
    (start envOpenFail stIdle 1).1 ≠ StartOutcome.ok := by
  refine ⟨rfl, rfl, ?_⟩
  decide

/-- C1 amended: for every positive sample rate, `start` succeeds if and only
if `isAvailable()` is true, the global slot is unoccupied, the backend open
succeeds, and the pre-start hook `onStart` accepts. -/
theorem start_ok_iff (env : Env) (s : RecState) (r : Nat) (hr : 0 < r) :
    (start env s r).1 = StartOutcome.ok ↔
      (isAvailable env = true ∧ s.captureDevice = none ∧
       env.openOk s.deviceName r = true ∧ env.onStart = true) := by
  simp only [start]
  split_ifs with h1 h2 h3 h4
  · have hA : isAvailable env = false := by
      cases hb : isAvailable env <;> simp_all
    simp [hA]
  · have hC : s.captureDevice ≠ none := Option.isSome_iff_ne_none.mp h2
    simp [hC]
  · have hO : env.openOk s.deviceName r = false := by
      cases hb : env.openOk s.deviceName r <;> simp_all
    simp [hO]
  · have hA : isAvailable env = true := by
      cases hb : isAvailable env <;> simp_all
    have hC : s.captureDevice = none := by
      cases hb : s.captureDevice <;> simp_all
    have hO : env.openOk s.deviceName r = true := by
      cases hb : env.openOk s.deviceName r <;> simp_all
    simp [hA, hC, hO, h4]
  · have hS : env.onStart = false := by
      cases hb : env.onStart <;> simp_all
    simp [hS]

/-- C1 witness: in the cooperative world all four conditions hold at rate
44100 and `start` indeed succeeds. -/
theorem start_ok_iff_witness :
    (start envOk stIdle 44100).1 = StartOutcome.ok :=
  (start_ok_iff envOk stIdle 44100 (by decide)).mpr ⟨rfl, rfl, rfl, rfl⟩

/-- C2: when `start` passes the availability check, the slot check and the
backend open, but `onStart()` returns false, it returns with the
ConsumerAborted outcome while the backend device stays open and the global
slot stays occupied (`captureDevice` non-null, no close call issued). -/
theorem start_consumer_abort_leaves_device_open (env : Env) (s : RecState)
    (r : Nat) (h1 : isAvailable env = true) (h2 : s.captureDevice = none)
    (h3 : env.openOk s.deviceName r = true) (h4 : env.onStart = false) :
    (start env s r).1 = StartOutcome.consumerAborted ∧
    (start env s r).2.1.captureDevice = some () ∧
    countE Event.closeDevice (start env s r).2.2 = 0 ∧
    countE Event.slotCleared (start env s r).2.2 = 0 := by
  simp [start, h1, h2, h3, h4, countE]

/-- C2 witness: the aborting world at rate 8000. -/
theorem start_consumer_abort_leaves_device_open_witness :
    isAvailable envAbort = true ∧ stIdle.captureDevice = none ∧
    envAbort.openOk stIdle.deviceName 8000 = true ∧
    envAbort.onStart = false ∧
    ((start envAbort stIdle 8000).1 = StartOutcome.consumerAborted ∧
     (start envAbort stIdle 8000).2.1.captureDevice = some () ∧
     countE Event.closeDevice (start envAbort stIdle 8000).2.2 = 0 ∧
     countE Event.slotCleared (start envAbort stIdle 8000).2.2 = 0) :=
  ⟨rfl, rfl, rfl, rfl,
   start_consumer_abort_leaves_device_open envAbort stIdle 8000 rfl rfl rfl rfl⟩

/-- C9: a start rejected by `onStart()` has already stored the new sample
rate and cleared the sample buffer, so `getSampleRate()` afterwards returns
the rate of the failed start. -/
theorem start_consumer_abort_stores_rate (env : Env) (s : RecState)
    (r : Nat) (h1 : isAvailable env = true) (h2 : s.captureDevice = none)
    (h3 : env.openOk s.deviceName r = true) (h4 : env.onStart = false) :
    (start env s r).1 = StartOutcome.consumerAborted ∧
    getSampleRate (start env s r).2.1 = r ∧
    (start env s r).2.1.samples = [] := by
  simp [start, getSampleRate, h1, h2, h3, h4]

/-- C9 witness: the aborting world at rate 22050. -/
theorem start_consumer_abort_stores_rate_witness :
    isAvailable envAbort = true ∧ stIdle.captureDevice = none ∧
    envAbort.openOk stIdle.deviceName 22050 = true ∧
    envAbort.onStart = false ∧
    ((start envAbort stIdle 22050).1 = StartOutcome.consumerAborted ∧
     getSampleRate (start envAbort stIdle 22050).2.1 = 22050 ∧
     (start envAbort stIdle 22050).2.1.samples = []) :=
  ⟨rfl, rfl, rfl, rfl,
   start_consumer_abort_stores_rate envAbort stIdle 22050 rfl rfl rfl rfl⟩

/-- C8: `setDevice` while Idle performs no backend call and no hook call
(empty trace), returns true, and changes nothing but the stored device name,
an empty name resolving to the platform default. -/
theorem setDevice_idle_frame (env : Env) (s : RecState) (name : String)
    (i : Nat) (h : s.isCapturing = false) :
    setDevice env s name i =
      (true,
       { s with deviceName := if name = "" then env.defaultDevice else name },
       []) := by
  simp [setDevice, h]

/-- C8 witness: renaming an idle recorder to "mic" and to the default. -/
theorem setDevice_idle_frame_witness :
    stIdle.isCapturing = false ∧
    setDevice envOk stIdle "mic" 0 =
      (true, { stIdle with deviceName := "mic" }, []) ∧
    setDevice envOk stIdle "" 0 =
      (true, { stIdle with deviceName := envOk.defaultDevice }, []) :=
  ⟨rfl,
   by simpa using setDevice_idle_frame envOk stIdle "mic" 0 rfl,
   by simpa using setDevice_idle_frame envOk stIdle "" 0 rfl⟩

/-- C5: `setDevice` while Capturing whose backend reopen fails returns false,
leaves the recorder Idle (`m_isCapturing` false), and invokes the post-stop
hook exactly once in the whole run. -/
theorem setDevice_reopen_failure (env : Env) (s : RecState) (name : String)
    (i : Nat) (hc : s.isCapturing = true)
    (ho : env.openOk name s.sampleRate = false) :
    (setDevice env s name i).1 = false ∧
    (setDevice env s name i).2.1.isCapturing = false ∧
    countE Event.hookStop (setDevice env s name i).2.2 = 1 := by
  simp [setDevice, hc, record_sampleRate, ho, record_isCapturing,
    countE_append, countE, record_no_hookStop]

/-- C5 witness: a live session asked to switch to a device the backend
rejects. -/
theorem setDevice_reopen_failure_witness :
    stLive.isCapturing = true ∧
    envOpenFail.openOk "mic2" stLive.sampleRate = false ∧
    ((setDevice envOpenFail stLive "mic2" 0).1 = false ∧
     (setDevice envOpenFail stLive "mic2" 0).2.1.isCapturing = false ∧
     countE Event.hookStop (setDevice envOpenFail stLive "mic2" 0).2.2 = 1) :=
  ⟨rfl, rfl, setDevice_reopen_failure envOpenFail stLive "mic2" 0 rfl rfl⟩

/-- C10: after a capturing `setDevice` fails its reopen, the global slot is
empty (`captureDevice` null: the joined thread's cleanup cleared it and the
failed open stored null), so no subsequent `start` can fail DeviceBusy. -/
theorem setDevice_failure_frees_slot (env : Env) (s : RecState)
    (name : String) (i : Nat) (hc : s.isCapturing = true)
    (ho : env.openOk name s.sampleRate = false) :
    (setDevice env s name i).1 = false ∧
    (setDevice env s name i).2.1.captureDevice = none ∧
    ∀ env2 r2, (start env2 (setDevice env s name i).2.1 r2).1 ≠
      StartOutcome.deviceBusy := by
  have h2 : (setDevice env s name i).2.1.captureDevice = none := by
    simp [setDevice, hc, record_sampleRate, ho]
  refine ⟨?_, h2, fun env2 r2 => start_ne_deviceBusy env2 _ r2 h2⟩
  simp [setDevice, hc, record_sampleRate, ho]

/-- C10 witness: after the failed switch, restarting in the cooperative world
does not report DeviceBusy (it succeeds). -/
theorem setDevice_failure_frees_slot_witness :
    stLive.isCapturing = true ∧
    envOpenFail.openOk "mic3" stLive.sampleRate = false ∧
    (setDevice envOpenFail stLive "mic3" 0).2.1.captureDevice = none ∧
    (start envOk (setDevice envOpenFail stLive "mic3" 0).2.1 44100).1 ≠
      StartOutcome.deviceBusy :=
  ⟨rfl, rfl,
   (setDevice_failure_frees_slot envOpenFail stLive "mic3" 0 rfl rfl).2.1,
   (setDevice_failure_frees_slot envOpenFail stLive "mic3" 0 rfl rfl).2.2
     envOk 44100⟩

/-- C6 counterexample: on an Idle recorder `stop()` is not free of observable
effect — it still invokes the post-stop hook `onStop`, so "a second stop has
no observable effect" is false on the code. -/
theorem stop_idle_counterexample :
    stIdle.isCapturing = false ∧ stIdle.threadRunning = false ∧
    (stop envOk stIdle 0).2 = [Event.hookStop] ∧
    (stop envOk stIdle 0).2 ≠ ([] : List Event) := by
  refine ⟨rfl, rfl, rfl, ?_⟩
  decide

/-- C6 amended: `stop()` on a running session joins the whole remaining
thread run including its drain and cleanup (the trace carries exactly one
device close; the final state is Idle with the slot clear and no thread) and
only then invokes the post-stop hook, exactly once; `stop()` when already
Idle leaves the state unchanged apart from re-clearing the stop flag but
still invokes the post-stop hook once more. -/
theorem stop_spec (env : Env) (s : RecState) (i : Nat) :
    (s.threadRunning = true →
      stop env s i =
        ({ (record env s i).1 with threadRunning := false },
         (record env s i).2 ++ [Event.hookStop]) ∧
      (stop env s i).1.isCapturing = false ∧
      (stop env s i).1.captureDevice = none ∧
      (stop env s i).1.threadRunning = false ∧
      countE Event.closeDevice (stop env s i).2 = 1 ∧
      countE Event.hookStop (stop env s i).2 = 1) ∧
    (s.threadRunning = false →
      (stop env s i).1 = { s with isCapturing := false } ∧
      (stop env s i).2 = [Event.hookStop]) := by
  constructor
  · intro h
    refine ⟨by simp [stop, h], ?_, ?_, ?_, ?_, ?_⟩
    · simp [stop, h, record_isCapturing]
    · simp [stop, h, record_captureDevice]
    · simp [stop, h]
    · simp [stop, h, countE_append, countE,
        (record_shutdown_once env s i).2.1]
    · simp [stop, h, countE_append, countE, record_no_hookStop]
  · intro h
    simp [stop, h]

/-- C6 witness: stopping the live session after one loop iteration closes
the device once and fires the hook once. -/
theorem stop_spec_witness :
    stLive.threadRunning = true ∧
    countE Event.closeDevice (stop envOk stLive 1).2 = 1 ∧
    countE Event.hookStop (stop envOk stLive 1).2 = 1 :=
  ⟨rfl, ((stop_spec envOk stLive 1).1 rfl).2.2.2.2.1,
   ((stop_spec envOk stLive 1).1 rfl).2.2.2.2.2⟩

/-- C7: when `onProcessSamples` refuses during an active iteration, the stop
flag is cleared at once, yet the iteration still sleeps before the loop
re-checks and goes to cleanup; after that pass the only possible further
delivery is the single drain poll (at most one more hook call). -/
theorem hook_refusal_one_iteration_latency (env : Env) (s : RecState)
    (k n : Nat) (hc : s.isCapturing = true)
    (hn : s.pollQueue.headD 0 = n) (hpos : 0 < n)
    (hr : env.onProcess s.hookIdx = false) :
    (processCapturedSamples env s).1.isCapturing = false ∧
    record env s (k + 1) =
      ((cleanup env (processCapturedSamples env s).1).1,
       (processCapturedSamples env s).2 ++
         (Event.sleep s.processingInterval ::
           (cleanup env (processCapturedSamples env s).1).2)) ∧
    hookCallCount (cleanup env (processCapturedSamples env s).1).2 ≤ 1 := by
  subst hn
  have h1 : (processCapturedSamples env s).1.isCapturing = false := by
    simp only [processCapturedSamples]
    rw [if_pos hpos]
    simp [hr]
  refine ⟨h1, ?_, cleanup_hookCallCount_le_one env _⟩
  simp [record, hc, record_of_not_capturing env _ k h1]

/-- C7 witness: the refusing hook on the live session with 100 samples
pending. -/
theorem hook_refusal_one_iteration_latency_witness :
    stLive.isCapturing = true ∧ stLive.pollQueue.headD 0 = 100 ∧
    0 < 100 ∧ envRefuse.onProcess stLive.hookIdx = false ∧
    ((processCapturedSamples envRefuse stLive).1.isCapturing = false ∧
     hookCallCount
       (cleanup envRefuse (processCapturedSamples envRefuse stLive).1).2
       ≤ 1) :=
  ⟨rfl, rfl, by decide, rfl,
   (hook_refusal_one_iteration_latency envRefuse stLive 4 100 rfl rfl
      (by decide) rfl).1,
   (hook_refusal_one_iteration_latency envRefuse stLive 4 100 rfl rfl
      (by decide) rfl).2.2⟩

/-- C3: every run of the capture loop ends in the cleanup sequence exactly
once, in order: backend capture stop, exactly one more poll-and-forward pass
(whose hook return value does not affect the resulting state, the stop flag
being already clear), device close, slot clear; afterwards `captureDevice`
is null. -/
theorem record_cleanup_exactly_once (env : Env) (f : Nat → Bool)
    (s : RecState) (i : Nat) :
    (countE Event.captureStop (record env s i).2 = 1 ∧
     countE Event.closeDevice (record env s i).2 = 1 ∧
     countE Event.slotCleared (record env s i).2 = 1) ∧
    (∃ pre s0, s0.isCapturing = false ∧
       record env s i = ((cleanup env s0).1, pre ++ (cleanup env s0).2) ∧
       countE Event.captureStop pre = 0 ∧
       countE Event.closeDevice pre = 0 ∧
       countE Event.slotCleared pre = 0 ∧
       (cleanup env s0).2 =
         Event.captureStop :: ((processCapturedSamples env s0).2 ++
           [Event.closeDevice, Event.slotCleared]) ∧
       (cleanup env s0).1 = (cleanup { env with onProcess := f } s0).1) ∧
    (record env s i).1.captureDevice = none := by
  obtain ⟨pre, s0, h0, heq, h1, h2, h3⟩ := record_shape env s i
  exact ⟨record_shutdown_once env s i,
    ⟨pre, s0, h0, heq, h1, h2, h3, rfl,
     cleanup_state_hook_independent env f s0 h0⟩,
    record_captureDevice env s i⟩

/-- C4: a poll reporting n > 0 available samples resizes the buffer to
exactly n, pulls exactly n samples and invokes `onProcessSamples` once with
count n; a zero poll invokes no hook; hence scenario B (polls 100, 50, 0
before the stop) delivers exactly the counts 100 then 50. -/
theorem poll_and_forward_spec (env : Env) (s : RecState) (n : Nat)
    (hn : s.pollQueue.headD 0 = n) :
    (0 < n →
      (processCapturedSamples env s).2 =
        [Event.getAvail n, Event.pullSamples n,
         Event.hookProcess n (env.onProcess s.hookIdx)] ∧
      (processCapturedSamples env s).1.samples.length = n ∧
      hookCallCount (processCapturedSamples env s).2 = 1) ∧
    (n = 0 →
      (processCapturedSamples env s).2 = [Event.getAvail 0] ∧
      hookCallCount (processCapturedSamples env s).2 = 0) ∧
    hookCounts (record envOk stLive 3).2 = [100, 50] := by
  subst hn
  refine ⟨?_, ?_, ?_⟩
  · intro hp
    simp only [processCapturedSamples]
    rw [if_pos hp]
    simp [hookCallCount, hookCounts]
  · intro h0
    simp only [processCapturedSamples]
    rw [if_neg (by omega), h0]
    simp [hookCallCount, hookCounts]
  · decide

/-- C4 witness: the first poll of the live session reports 100 samples and
is forwarded once with count 100. -/
theorem poll_and_forward_spec_witness :
    stLive.pollQueue.headD 0 = 100 ∧
    ((processCapturedSamples envOk stLive).2 =
       [Event.getAvail 100, Event.pullSamples 100,
        Event.hookProcess 100 (envOk.onProcess stLive.hookIdx)] ∧
     (processCapturedSamples envOk stLive).1.samples.length = 100 ∧
     hookCallCount (processCapturedSamples envOk stLive).2 = 1) :=
  ⟨rfl, (poll_and_forward_spec envOk stLive 100 rfl).1 (by decide)⟩

end SfmlPi
